import Mathlib

/-!
Verification of the NL-to-SQL assistant core: the SQL builder
(src/testingagents/test_sql_builder.py), the validation agent
(src/agents/validation_agent.py), the routing function (src/graph.py) and
the formatter agent (src/agents/formatter_agent.py), shallowly embedded in
Lean.  Python strings are modelled as Lean `String`; the ASCII string
methods used by the code (`upper`, `lower`, `replace`, `join`, slicing,
`strip`) are modelled as explicit char-list functions so that all
definitions evaluate inside the kernel.  A Python exception is modelled as
`Option.none` / `Except.error`.
-/

/-- Python `s.upper()` (ASCII). -/
def pyUpper (s : String) : String := ⟨s.data.map Char.toUpper⟩

/-- Python `s.lower()` (ASCII). -/
def pyLower (s : String) : String := ⟨s.data.map Char.toLower⟩

/-- Python `s.replace(old, new)` for a one-character `old`. -/
def pyReplace (s : String) (old : Char) (new : String) : String :=
  ⟨(s.data.map (fun ch => if ch = old then new.data else [ch])).flatten⟩

/-- Python `sep.join(parts)`. -/
def pyJoin (sep : String) : List String → String
  | [] => ""
  | [x] => x
  | x :: y :: xs => x ++ sep ++ pyJoin sep (y :: xs)

/-- Python `s[:n]` (prefix slice by code points). -/
def pyTake (s : String) (n : Nat) : String := ⟨s.data.take n⟩

/-- Python `s.strip()`. -/
def pyStrip (s : String) : String :=
  ⟨((s.data.dropWhile Char.isWhitespace).reverse.dropWhile Char.isWhitespace).reverse⟩

/-- A Python value as it can appear in `FilterCondition.value`
(`str | int | float | bool | list`, plus `None` which `_lit` handles
defensively).  Numbers are modelled as integers: no claim depends on float
rendering. -/
inductive PyVal where
  | str : String → PyVal
  | int : Int → PyVal
  | bool : Bool → PyVal
  | none : PyVal
  | list : List PyVal → PyVal

mutual
/-- Approximation of CPython `repr` used only through `str(list)` in the
`_lit` fallthrough (exact quote escaping of exotic strings is not modelled;
no theorem depends on this branch). -/
def pyRepr : PyVal → String
  | .str s => "'" ++ s ++ "'"
  | .int n => toString n
  | .bool b => if b then "True" else "False"
  | .none => "None"
  | .list xs => "[" ++ pyJoin ", " (pyReprList xs) ++ "]"

/-- Python repr of each element of a list, in order. -/
def pyReprList : List PyVal → List String
  | [] => []
  | x :: xs => pyRepr x :: pyReprList xs
end

/-- Function `_lit` from src/testingagents/test_sql_builder.py: renders a filter
literal.  Branch order follows the source: bool, str, None, fallthrough
`str(value)` (which for a list is its repr). -/
def lit : PyVal → String
  | .bool b => if b then "true" else "false"
  | .str s => "'" ++ pyReplace s '\'' "''" ++ "'"
  | .none => "NULL"
  | .int n => toString n
  | .list xs => "[" ++ pyJoin ", " (pyReprList xs) ++ "]"

/-- Function `_q` from the source: unconditional double-quoting of a column name. -/
def qcol (col : String) : String := "\"" ++ col ++ "\""

/-- The keys of `_OP_MAP`, in source order. -/
def OPS : List String :=
  ["equals", "greater_than", "less_than", "greater_or_equal",
   "less_or_equal", "in", "between"]

/-- Python `for x in v` over a filter value: a list yields its elements, a
string yields its one-character substrings, anything else raises
`TypeError` (modelled as `Option.none`).  Returns `_lit` of each item. -/
def iterLits : PyVal → Option (List String)
  | .list xs => some (xs.map lit)
  | .str s => some (s.data.map (fun ch => lit (.str ⟨[ch]⟩)))
  | _ => Option.none

/-- Python `v[i]`: list or string indexing, `IndexError`/`TypeError`
modelled as `Option.none`. -/
def item : PyVal → Nat → Option PyVal
  | .list xs, i => xs.get? i
  | .str s, i => (s.data.get? i).map (fun ch => .str ⟨[ch]⟩)
  | _, _ => Option.none

/-- Lookup `_OP_MAP[op](c, v)` for `op ∈ OPS`: the rendered condition, or
`Option.none` when the Python lambda would raise (non-iterable `in` value,
`between` value with fewer than two items).  For `op ∉ OPS` the result is
`Option.none` as well, but `build_sql` never calls it then. -/
def opApply (op c : String) (v : PyVal) : Option String :=
  if op = "equals" then some (c ++ " = " ++ lit v)
  else if op = "greater_than" then some (c ++ " > " ++ lit v)
  else if op = "less_than" then some (c ++ " < " ++ lit v)
  else if op = "greater_or_equal" then some (c ++ " >= " ++ lit v)
  else if op = "less_or_equal" then some (c ++ " <= " ++ lit v)
  else if op = "in" then
    match iterLits v with
    | some ls => some (c ++ " IN (" ++ pyJoin ", " ls ++ ")")
    | Option.none => Option.none
  else if op = "between" then
    match item v 0, item v 1 with
    | some a, some b => some (c ++ " BETWEEN " ++ lit a ++ " AND " ++ lit b)
    | _, _ => Option.none
  else Option.none

/-- Model `AggregationSpec` from src/models.py (named `Aggregation` in the test
driver): an aggregation `(column, function)` pair. -/
structure AggregationSpec where
  column : String
  function : String
deriving DecidableEq

/-- Model `SortSpec` from src/models.py. -/
structure SortSpec where
  column : String
  direction : String
deriving DecidableEq

/-- Model `FilterCondition` from src/models.py. -/
structure FilterCondition where
  column : String
  operator : String
  value : PyVal

/-- The `Resolution` record consumed by `build_sql`
(src/testingagents/test_sql_builder.py; the pydantic original is
`QueryResolutionOutput` in src/models.py).  `aggregations` and `sort` may
be `None` in the pydantic model, but every use in the source is guarded by
truthiness, under which `None` and `[]` are indistinguishable, so both are
modelled as lists.  `limit` is `int | None`. -/
structure Resolution where
  intent : String
  relevant_columns : List String
  aggregations : List AggregationSpec
  dimensions : List String
  filters : List FilterCondition
  sort : List SortSpec
  limit : Option Int
  comments : String

/-- One SELECT-list entry for an aggregation, from the loop in
`build_sql`: `COUNT` is special-cased to `COUNT(DISTINCT col)`; the alias
is `{fn.lower()}_{column.lower().replace(" ", "_")}`. -/
def aggSelectPart (a : AggregationSpec) : String :=
  let fn := pyUpper a.function
  let col := qcol a.column
  let aliasName := pyLower fn ++ "_" ++ pyReplace (pyLower a.column) ' ' "_"
  if fn = "COUNT" then "COUNT(DISTINCT " ++ col ++ ") AS \"" ++ aliasName ++ "\""
  else fn ++ "(" ++ col ++ ") AS \"" ++ aliasName ++ "\""

/-- The SELECT list of `build_sql`: aggregation expressions then quoted
dimensions when `aggregations` is truthy, otherwise the quoted
`relevant_columns`. -/
def selectParts (r : Resolution) : List String :=
  if r.aggregations.isEmpty then r.relevant_columns.map qcol
  else r.aggregations.map aggSelectPart ++ r.dimensions.map qcol

/-- The WHERE-condition list of `build_sql`: each filter whose operator is
a key of `_OP_MAP` is rendered in order; other filters are skipped
(`_OP_MAP.get` returns `None`); a raising render aborts the whole call. -/
def conds : List FilterCondition → Option (List String)
  | [] => some []
  | f :: fs =>
    if f.operator ∈ OPS then
      match opApply f.operator (qcol f.column) f.value with
      | Option.none => Option.none
      | some c => (conds fs).map (fun cs => c :: cs)
    else conds fs

/-- Function `build_sql` from src/testingagents/test_sql_builder.py.  Returns
`Option.none` exactly when the Python function raises. -/
def build_sql (r : Resolution) (table_name : String) : Option String :=
  let base := "SELECT " ++ pyJoin ", " (selectParts r) ++ "\nFROM " ++ table_name
  match conds r.filters with
  | Option.none => Option.none
  | some cs =>
    let s1 := if r.filters.isEmpty then base
              else if cs.isEmpty then base
              else base ++ "\nWHERE " ++ pyJoin "\n  AND " cs
    let s2 := if ¬ r.aggregations.isEmpty ∧ ¬ r.dimensions.isEmpty then
                s1 ++ "\nGROUP BY " ++ pyJoin ", " (r.dimensions.map qcol)
              else s1
    let s3 := if ¬ r.sort.isEmpty then
                s2 ++ "\nORDER BY " ++
                  pyJoin ", " (r.sort.map (fun s => qcol s.column ++ " " ++ pyUpper s.direction))
              else s2
    let s4 := match r.limit with
              | Option.none => s3
              | some n => if n = 0 then s3 else s3 ++ "\nLIMIT " ++ toString n
    some s4

/-- Model `ValidationOutput` from src/models.py: the Judge's verdict. -/
structure ValidationOutput where
  passed : Bool
  reason : String
  route_to : String
deriving DecidableEq

/-- Python truthiness of an optional string (`os.getenv` result,
`state.get("error")`): falsy when missing or empty. -/
def truthyOpt : Option String → Bool
  | Option.none => false
  | Option.some s => ¬ s.isEmpty

/-- The slice of `RetailAgenticState` (src/state.py) read or written by the
validation agent, the router and the formatter.  Every key is present in
the initial state built by src/app.py / src/main.py, so fields are plain
values (the `state.get(k, default)` defaults in the source never apply).
Result rows are modelled as association lists whose cells are already
rendered strings (`str(...)` of a cell is not further modelled; no claim
depends on cell formatting).  Messages keep only the `AIMessage` text. -/
structure AgentState where
  user_query : String
  error : Option String
  sql : String
  rows : List (List (String × String))
  columns : List String
  validation_passed : Bool
  validation_reason : String
  validation_feedback : String
  route_to : String
  resolution_retry_count : Nat
  extraction_retry_count : Nat
  final_answer : String
  messages : List String
deriving DecidableEq

/-- Function `validation_agent` from src/agents/validation_agent.py.  The prompt
construction and the structured-LLM call are abstracted into the `judge`
argument: `Except.ok v` is a returned `ValidationOutput`, `Except.error e`
is an exception raised by the call. -/
def validation_agent (api_key : Option String) (judge : Except String ValidationOutput)
    (s : AgentState) : AgentState :=
  if ¬ truthyOpt api_key then
    { s with error := some "OPENAI_API_KEY not set.",
             messages := s.messages ++ ["DataExtractionAgent: no API key"] }
  else if truthyOpt s.error then
    let reason := "SQL execution failed: " ++ s.error.getD ""
    { s with validation_passed := false, validation_reason := reason,
             validation_feedback := reason,
             route_to := "data_extraction",
             extraction_retry_count := s.extraction_retry_count + 1,
             messages := s.messages ++
               ["ValidationAgent: FAIL SQL error → retry data_extraction"] }
  else
    match judge with
    | Except.ok resp =>
      if resp.passed then
        { s with validation_passed := true, validation_reason := resp.reason,
                 validation_feedback := "", route_to := "", error := Option.none,
                 messages := s.messages ++
                   ["ValidationAgent: PASS - " ++ pyTake resp.reason 80] }
      else
        let route := if resp.route_to = "query_resolution" ∨ resp.route_to = "data_extraction"
                     then resp.route_to else "data_extraction"
        { s with validation_passed := false, validation_reason := resp.reason,
                 validation_feedback := resp.reason, route_to := route,
                 resolution_retry_count :=
                   s.resolution_retry_count + (if route = "query_resolution" then 1 else 0),
                 extraction_retry_count :=
                   s.extraction_retry_count + (if route = "data_extraction" then 1 else 0),
                 messages := s.messages ++
                   ["ValidationAgent: FAIL -> retry " ++ route ++ " - " ++ pyTake resp.reason 80] }
    | Except.error exc =>
      { s with validation_passed := true,
               validation_reason := "Validation LLM failed (" ++ exc ++ "), passing through.",
               validation_feedback := "",
               messages := s.messages ++
                 ["ValidationAgent: LLM error, passing through — " ++ exc] }

/-- Constant `MAX_RETRIES_RESOLUTION` from src/graph.py. -/
def MAX_RETRIES_RESOLUTION : Nat := 3

/-- Constant `MAX_RETRIES_EXTRACTION` from src/graph.py. -/
def MAX_RETRIES_EXTRACTION : Nat := 3

/-- Function `validation_router` from src/graph.py. -/
def validation_router (s : AgentState) : String :=
  if s.validation_passed then "formatter"
  else
    let route := s.route_to
    let res_used := s.resolution_retry_count
    let ext_used := s.extraction_retry_count
    if route = "query_resolution" ∧ res_used < MAX_RETRIES_RESOLUTION then "query_resolution"
    else if route = "data_extraction" ∧ ext_used < MAX_RETRIES_EXTRACTION then "data_extraction"
    else "formatter"

/-- Python `row.get(c, "")` on an association-list row. -/
def rowGet (row : List (String × String)) (c : String) : String :=
  match row.find? (fun p => p.1 = c) with
  | Option.some p => p.2
  | Option.none => ""

/-- Function `rows_to_text` from src/agents/formatter_agent.py (the copy in
validation_agent.py is textually identical). -/
def rows_to_text (rows : List (List (String × String))) (columns : List String)
    (max_rows : Nat) : String :=
  if rows.isEmpty then "(no data)"
  else
    let header := pyJoin "\t" columns
    let body := (rows.take max_rows).map (fun row => pyJoin "\t" (columns.map (rowGet row)))
    let lines := header :: body
    let lines := if max_rows < rows.length then
                   lines ++ ["... (" ++ toString (rows.length - max_rows) ++ " more rows)"]
                 else lines
    pyJoin "\n" lines

/-- Function `formatter_agent` from src/agents/formatter_agent.py.  The LLM call is
abstracted into `llm`: `Except.ok content` is the model's reply,
`Except.error e` an exception raised by the call. -/
def formatter_agent (api_key : Option String) (llm : Except String String)
    (s : AgentState) : AgentState :=
  if ¬ truthyOpt api_key then
    { s with final_answer := "Error: OPENAI_API_KEY not set.", error := some "no API key" }
  else if ¬ s.validation_passed ∧ s.rows.isEmpty then
    { s with final_answer := "I wasn't able to answer that. " ++ s.validation_reason,
             messages := s.messages ++ ["FormatterAgent: error answer"] }
  else
    match llm with
    | Except.ok content =>
      { s with final_answer := pyStrip content, error := Option.none,
               messages := s.messages ++ ["FormatterAgent: answer generated"] }
    | Except.error exc =>
      let data_text := rows_to_text s.rows s.columns 20
      { s with final_answer := "Results (" ++ toString s.rows.length ++ " rows):\n" ++ data_text,
               error := some ("formatter LLM failed: " ++ exc),
               messages := s.messages ++ ["FormatterAgent: fallback — " ++ exc] }

/-- The per-turn initial state built in src/app.py and src/main.py
(restricted to the modelled fields): counters zero, flags cleared. -/
def initialState (q : String) : AgentState :=
  { user_query := q, error := Option.none, sql := "", rows := [], columns := [],
    validation_passed := false, validation_reason := "", validation_feedback := "",
    route_to := "", resolution_retry_count := 0, extraction_retry_count := 0,
    final_answer := "", messages := [] }

/-- What one resolution→extraction pass delivers to the validation node:
either an error recorded in the state by `data_extraction_agent`
(src/agents/data_extraction_agent.py catches any LLM or engine exception
into `error`, never touching the retry counters), or a Judge verdict on a
successful execution (`error` cleared).  The intermediate agents do not
modify the retry counters, `route_to` or the validation flags. -/
inductive CycleOutcome where
  | engineError : String → CycleOutcome
  | verdict : ValidationOutput → CycleOutcome

/-- A failing judgment cycle: a recorded (nonempty) error, or a verdict
with `passed=false`. -/
def FAILS : CycleOutcome → Prop
  | .engineError m => m ≠ ""
  | .verdict v => v.passed = false

/-- One judgment cycle applied to the state: the state reaches
`validation_agent` with `error` set (engine failure) or cleared
(successful execution, Judge consulted).  On the error path the `judge`
argument is irrelevant (proved below), so a dummy verdict is passed. -/
def applyOutcome (api_key : Option String) (o : CycleOutcome) (s : AgentState) : AgentState :=
  match o with
  | .engineError m => validation_agent api_key (Except.ok ⟨true, "", ""⟩) { s with error := some m }
  | .verdict v => validation_agent api_key (Except.ok v) { s with error := Option.none }

/-- The state after `k` judgment cycles with outcomes `outs 0, …, outs (k-1)`. -/
def failTrace (api_key : Option String) (outs : Nat → CycleOutcome) (s0 : AgentState) :
    Nat → AgentState
  | 0 => s0
  | k + 1 => applyOutcome api_key (outs k) (failTrace api_key outs s0 k)

/-- A scalar in the sense of §3: string, number or boolean. -/
def scalarVal : PyVal → Bool
  | .str _ => true
  | .int _ => true
  | .bool _ => true
  | _ => false

/-- The §3 value invariant for one filter: `in` carries a non-empty list,
`between` a list of exactly two elements, any other operator a scalar. -/
def filterWF (f : FilterCondition) : Bool :=
  if f.operator = "in" then
    match f.value with
    | .list xs => ¬ xs.isEmpty
    | _ => false
  else if f.operator = "between" then
    match f.value with
    | .list xs => xs.length == 2
    | _ => false
  else scalarVal f.value

/-- The §3 value invariant for a whole filter list. -/
def filtersWF (fs : List FilterCondition) : Bool := fs.all filterWF

/-- Predicate: `needle` occurs as a contiguous substring of `hay`. -/
def strContains (hay needle : String) : Prop := ∃ p q, hay = p ++ needle ++ q

/-- The §8 scenario spec: SUM of `Amount` by `Category`, sorted, top 1. -/
def sampleSpec : Resolution :=
  { intent := "ranking", relevant_columns := ["Category", "Amount"],
    aggregations := [⟨"Amount", "sum"⟩], dimensions := ["Category"],
    filters := [], sort := [⟨"Amount", "desc"⟩], limit := some 1, comments := "" }

/-- A spec whose only referenced column, `Revenu`, is meant to be absent
from the uploaded table's column set (which `build_sql` never sees). -/
def revenuSpec : Resolution :=
  { intent := "filter_only", relevant_columns := ["Revenu"], aggregations := [],
    dimensions := [], filters := [], sort := [], limit := Option.none, comments := "" }

/-- A spec with an aggregation function outside the five recognized values. -/
def medianSpec : Resolution :=
  { intent := "aggregation", relevant_columns := [], aggregations := [⟨"price", "median"⟩],
    dimensions := [], filters := [], sort := [], limit := Option.none, comments := "" }

/-- A spec with a `count` aggregation on a column containing a space. -/
def countSpec : Resolution :=
  { intent := "aggregation", relevant_columns := [], aggregations := [⟨"Order ID", "count"⟩],
    dimensions := [], filters := [], sort := [], limit := Option.none, comments := "" }

/-- A spec whose filters exercise `between`, `in` and a scalar operator. -/
def wfSpec : Resolution :=
  { intent := "filter_only", relevant_columns := ["A"], aggregations := [], dimensions := [],
    filters := [⟨"B", "between", .list [.int 1, .int 5]⟩, ⟨"C", "in", .list [.str "x"]⟩,
                ⟨"D", "equals", .bool true⟩],
    sort := [], limit := Option.none, comments := "" }

/-- A spec whose only filter has an unrecognized operator. -/
def weirdSpec : Resolution :=
  { intent := "filter_only", relevant_columns := ["A"], aggregations := [], dimensions := [],
    filters := [⟨"C", "weird", .int 7⟩], sort := [], limit := Option.none, comments := "" }

/-- A pipeline state carrying a recorded error, as the extraction agent
leaves it after a failed generate/execute pass. -/
def errState : AgentState :=
  { initialState "q" with error := some "SpecValidationError: column Revenu not found" }

/-- A pipeline state after a passing validation with one result row. -/
def okState : AgentState :=
  { initialState "q" with
      validation_passed := true, rows := [[("a", "1")]], columns := ["a"] }

theorem strContains_self (s : String) : strContains s s :=
  ⟨"", "", by rw [String.append_empty]; rfl⟩

theorem strContains_append_right {h n : String} (q : String) (hc : strContains h n) :
    strContains (h ++ q) n := by
  obtain ⟨p, r, rfl⟩ := hc
  exact ⟨p, r ++ q, by rw [String.append_assoc]⟩

theorem strContains_append_left {h n : String} (p : String) (hc : strContains h n) :
    strContains (p ++ h) n := by
  obtain ⟨a, b, rfl⟩ := hc
  exact ⟨p ++ a, b, by simp [String.append_assoc]⟩

theorem strContains_of_mem_pyJoin (sep : String) {x : String} :
    ∀ {l : List String}, x ∈ l → strContains (pyJoin sep l) x := by
  intro l
  induction l with
  | nil => intro hx; cases hx
  | cons a t ih =>
    intro hx
    cases t with
    | nil =>
      rcases List.mem_singleton.mp hx with rfl
      exact strContains_self x
    | cons b t' =>
      rcases List.mem_cons.mp hx with rfl | hmem
      · exact strContains_append_right _ (strContains_append_right _ (strContains_self x))
      · exact strContains_append_left _ (ih hmem)

theorem exists_tail_refl (a : String) : ∃ t, a = a ++ t :=
  ⟨"", (String.append_empty a).symm⟩

theorem exists_tail_step {a b : String} (c : String) (h : ∃ t, b = a ++ t) :
    ∃ t, b ++ c = a ++ t := by
  obtain ⟨t, rfl⟩ := h
  exact ⟨t ++ c, by rw [String.append_assoc]⟩

set_option maxRecDepth 8192 in
/-- Every successful `build_sql` output starts with the SELECT list and the
FROM clause; all later clauses are appended after them. -/
theorem build_sql_shape {r : Resolution} {t s : String} (h : build_sql r t = some s) :
    ∃ tail, s = "SELECT " ++ pyJoin ", " (selectParts r) ++ "\nFROM " ++ t ++ tail := by
  unfold build_sql at h
  cases hc : conds r.filters with
  | none => rw [hc] at h; cases h
  | some cs =>
    rw [hc] at h
    dsimp only at h
    rw [Option.some_inj] at h
    subst h
    repeat first
    | exact exists_tail_refl _
    | apply exists_tail_step
    | split

theorem selectParts_ends_quote {r : Resolution} {p : String} (hp : p ∈ selectParts r) :
    ∃ x, p = x ++ "\"" := by
  unfold selectParts at hp
  split at hp
  · obtain ⟨c, _, rfl⟩ := List.mem_map.mp hp
    exact ⟨"\"" ++ c, rfl⟩
  · rcases List.mem_append.mp hp with hl | hr
    · obtain ⟨a, _, rfl⟩ := List.mem_map.mp hl
      unfold aggSelectPart
      dsimp only
      split
      · exact ⟨_, rfl⟩
      · exact ⟨_, rfl⟩
    · obtain ⟨c, _, rfl⟩ := List.mem_map.mp hr
      exact ⟨"\"" ++ c, rfl⟩

theorem ends_quote_ne_countstar {x : String} : x ++ "\"" ≠ "COUNT(*)" := by
  intro h
  have hd := congrArg String.data h
  rw [String.data_append] at hd
  have h1 : (x.data ++ "\"".data).getLast? = some '"' := List.getLast?_concat _
  rw [hd] at h1
  exact absurd h1 (by decide)

/-- No SELECT-list entry is the bare string `COUNT(*)`. -/
theorem countstar_not_mem_selectParts (r : Resolution) : "COUNT(*)" ∉ selectParts r := by
  intro hm
  obtain ⟨x, hx⟩ := selectParts_ends_quote hm
  exact ends_quote_ne_countstar hx.symm

theorem opApply_total_of_wf {f : FilterCondition} (hop : f.operator ∈ OPS)
    (hwf : filterWF f = true) :
    ∃ c, opApply f.operator (qcol f.column) f.value = some c := by
  obtain ⟨col, op, v⟩ := f
  simp only [OPS, List.mem_cons, List.not_mem_nil, or_false] at hop
  simp only [filterWF] at hwf
  rcases hop with rfl | rfl | rfl | rfl | rfl | rfl | rfl
  · exact ⟨_, rfl⟩
  · exact ⟨_, rfl⟩
  · exact ⟨_, rfl⟩
  · exact ⟨_, rfl⟩
  · exact ⟨_, rfl⟩
  · rw [if_pos rfl] at hwf
    cases v
    case list xs => exact ⟨_, rfl⟩
    all_goals cases hwf
  · rw [if_neg (by decide), if_pos rfl] at hwf
    cases v
    case list xs =>
      cases xs with
      | nil => cases hwf
      | cons a t =>
        cases t with
        | nil => cases hwf
        | cons b t2 => exact ⟨_, rfl⟩
    all_goals cases hwf

theorem conds_total_of_wf : ∀ {fs : List FilterCondition}, filtersWF fs = true →
    ∃ cs, conds fs = some cs := by
  intro fs
  induction fs with
  | nil => intro _; exact ⟨[], rfl⟩
  | cons f ft ih =>
    intro hwf
    rw [filtersWF, List.all_cons, Bool.and_eq_true] at hwf
    obtain ⟨cs, hcs⟩ := ih hwf.2
    unfold conds
    by_cases hop : f.operator ∈ OPS
    · obtain ⟨cf, hcf⟩ := opApply_total_of_wf hop hwf.1
      rw [if_pos hop, hcf, hcs]
      exact ⟨_, rfl⟩
    · rw [if_neg hop]
      exact ⟨_, hcs⟩

theorem conds_cons (f : FilterCondition) (fs : List FilterCondition) :
    conds (f :: fs) =
      if f.operator ∈ OPS then
        (match opApply f.operator (qcol f.column) f.value with
         | Option.none => Option.none
         | some c => (conds fs).map (fun cs => c :: cs))
      else conds fs := rfl

/-- Unrecognized operators are skipped: rendering a filter list renders
exactly its recognized sublist, in order. -/
theorem conds_filter_eq (fs : List FilterCondition) :
    conds fs = conds (fs.filter (fun f => decide (f.operator ∈ OPS))) := by
  induction fs with
  | nil => rfl
  | cons f ft ih =>
    by_cases hop : f.operator ∈ OPS
    · rw [List.filter_cons_of_pos (by simpa using hop), conds_cons, conds_cons,
        if_pos hop, ih, if_pos hop]
    · rw [List.filter_cons_of_neg (by simpa using hop), conds_cons, if_neg hop]
      exact ih

theorem mem_selectParts_of_agg {r : Resolution} {a : AggregationSpec}
    (ha : a ∈ r.aggregations) : aggSelectPart a ∈ selectParts r := by
  unfold selectParts
  rw [if_neg (by rw [List.isEmpty_iff]; exact List.ne_nil_of_mem ha)]
  exact List.mem_append_left _ (List.mem_map_of_mem _ ha)

theorem strContains_build_sql {r : Resolution} {t s p : String}
    (hs : build_sql r t = some s) (hp : p ∈ selectParts r) : strContains s p := by
  obtain ⟨tail, rfl⟩ := build_sql_shape hs
  exact strContains_append_right tail (strContains_append_right t
    (strContains_append_right "\nFROM " (strContains_append_left "SELECT "
      (strContains_of_mem_pyJoin ", " hp))))

/-- C3: for every `QuerySpec` containing an aggregation whose function
upper-cases to `COUNT` on column `C`, any successfully compiled SQL
contains the substring `COUNT(DISTINCT "C") AS "count_{c}"` (with `c` the
lowercased, space-to-underscore column name), and no SELECT-list entry is
ever the bare string `COUNT(*)`. -/
theorem C3_count_distinct_never_countstar (r : Resolution) (t : String)
    (a : AggregationSpec) (ha : a ∈ r.aggregations)
    (hcount : pyUpper a.function = "COUNT") (s : String)
    (hs : build_sql r t = some s) :
    strContains s
      ("COUNT(DISTINCT " ++ qcol a.column ++ ") AS \"" ++
        ("count_" ++ pyReplace (pyLower a.column) ' ' "_") ++ "\"") ∧
    "COUNT(*)" ∉ selectParts r := by
  refine ⟨?_, countstar_not_mem_selectParts r⟩
  have hpart : aggSelectPart a =
      "COUNT(DISTINCT " ++ qcol a.column ++ ") AS \"" ++
        ("count_" ++ pyReplace (pyLower a.column) ' ' "_") ++ "\"" := by
    simp only [aggSelectPart]
    rw [hcount, if_pos rfl, show pyLower "COUNT" = "count" from by decide,
      show ("count" : String) ++ "_" = "count_" from rfl]
  rw [← hpart]
  exact strContains_build_sql hs (mem_selectParts_of_agg ha)

/-- C8 (amended): an aggregation function whose upper-casing is not
`COUNT` is not rejected; `build_sql` passes it through verbatim as
`FN("col") AS "fn_col"` in the compiled SQL. -/
theorem C8_amended_passthrough (r : Resolution) (t : String)
    (a : AggregationSpec) (ha : a ∈ r.aggregations)
    (hfn : pyUpper a.function ≠ "COUNT") (s : String)
    (hs : build_sql r t = some s) :
    strContains s
      (pyUpper a.function ++ "(" ++ qcol a.column ++ ") AS \"" ++
        (pyLower (pyUpper a.function) ++ "_" ++ pyReplace (pyLower a.column) ' ' "_") ++ "\"") := by
  have hpart : aggSelectPart a =
      pyUpper a.function ++ "(" ++ qcol a.column ++ ") AS \"" ++
        (pyLower (pyUpper a.function) ++ "_" ++ pyReplace (pyLower a.column) ' ' "_") ++ "\"" := by
    simp only [aggSelectPart]
    rw [if_neg hfn]
  rw [← hpart]
  exact strContains_build_sql hs (mem_selectParts_of_agg ha)

/-- C6: for every spec whose filters satisfy the §3 value invariants,
`build_sql` is total (returns a SQL string, never raises — in particular
the `value[0]`/`value[1]` indexing of the `between` branch is covered by
the two-element precondition) and deterministic (as a pure Lean function
two runs on the same input are the same run; stated as uniqueness of the
result). -/
theorem C6_total_deterministic (r : Resolution) (t : String)
    (hwf : filtersWF r.filters = true) :
    (∃ s, build_sql r t = some s) ∧
    ∀ s₁ s₂, build_sql r t = some s₁ → build_sql r t = some s₂ → s₁ = s₂ := by
  obtain ⟨cs, hcs⟩ := conds_total_of_wf hwf
  constructor
  · unfold build_sql
    rw [hcs]
    exact ⟨_, rfl⟩
  · intro s₁ s₂ h1 h2
    rw [h1, Option.some_inj] at h2
    exact h2

/-- C7: a `limit` of `0` compiles to exactly the same SQL as an absent
`limit` (no LIMIT clause), and a positive `limit` `n` appends exactly
`LIMIT n` (on its own line) to the otherwise-identical SQL; the compiler
never invents a limit. -/
theorem C7_limit_clause (r : Resolution) (t : String) :
    build_sql { r with limit := Option.none } t = build_sql { r with limit := some 0 } t ∧
    ∀ n : Int, 0 < n →
      build_sql { r with limit := some n } t =
        Option.map (fun s => s ++ "\nLIMIT " ++ toString n)
          (build_sql { r with limit := Option.none } t) := by
  constructor
  · unfold build_sql
    dsimp only
    cases conds r.filters <;> rfl
  · intro n hn
    unfold build_sql
    dsimp only
    cases conds r.filters with
    | none => rfl
    | some cs =>
      dsimp only [Option.map]
      rw [if_neg (show ¬ n = 0 by omega)]
      rfl

/-- C10: filters with unrecognized operators are silently dropped:
rendering a filter list equals rendering its recognized sublist (same
order, no error), and when no filter has a recognized operator the
compiled SQL is identical to the SQL of the same spec with no filters at
all (no WHERE clause). -/
theorem C10_unrecognized_filters_skipped (r : Resolution) (t : String) :
    conds r.filters = conds (r.filters.filter (fun f => decide (f.operator ∈ OPS))) ∧
    ((∀ f ∈ r.filters, f.operator ∉ OPS) →
      build_sql r t = build_sql { r with filters := [] } t) := by
  refine ⟨conds_filter_eq r.filters, ?_⟩
  intro hall
  have hnil : r.filters.filter (fun f => decide (f.operator ∈ OPS)) = [] :=
    List.filter_eq_nil_iff.mpr (fun f hf => by simpa using hall f hf)
  have hc : conds r.filters = some [] := by rw [conds_filter_eq, hnil]; rfl
  unfold build_sql
  dsimp only
  rw [hc]
  cases hfe : r.filters.isEmpty <;> rfl

/-- C2 (amended): `build_sql` performs no column-grounding validation — it
does not even receive the table's column set — and never raises for an
unknown column: for any spec with no aggregations and well-formed filter
values, it returns SQL in which every `relevant_columns` entry, known or
not, appears verbatim double-quoted. -/
theorem C2_amended_no_column_validation (r : Resolution) (t c : String)
    (hagg : r.aggregations = []) (hc : c ∈ r.relevant_columns)
    (hwf : filtersWF r.filters = true) :
    ∃ s, build_sql r t = some s ∧ strContains s (qcol c) := by
  obtain ⟨cs, hcs⟩ := conds_total_of_wf hwf
  have hsome : ∃ s, build_sql r t = some s := by
    unfold build_sql
    rw [hcs]
    exact ⟨_, rfl⟩
  obtain ⟨s, hs⟩ := hsome
  refine ⟨s, hs, ?_⟩
  have hmem : qcol c ∈ selectParts r := by
    unfold selectParts
    rw [if_pos (by rw [List.isEmpty_iff]; exact hagg)]
    exact List.mem_map_of_mem _ hc
  exact strContains_build_sql hs hmem

/-- Every failing judgment cycle sets `validation_passed = false` and
increments exactly one retry counter, the one matching the stored route
(`query_resolution` or `data_extraction`). -/
theorem applyOutcome_fail (api_key : Option String) (hk : truthyOpt api_key = true)
    {o : CycleOutcome} (ho : FAILS o) (s : AgentState) :
    (applyOutcome api_key o s).validation_passed = false ∧
    (((applyOutcome api_key o s).route_to = "query_resolution" ∧
      (applyOutcome api_key o s).resolution_retry_count = s.resolution_retry_count + 1 ∧
      (applyOutcome api_key o s).extraction_retry_count = s.extraction_retry_count) ∨
     ((applyOutcome api_key o s).route_to = "data_extraction" ∧
      (applyOutcome api_key o s).extraction_retry_count = s.extraction_retry_count + 1 ∧
      (applyOutcome api_key o s).resolution_retry_count = s.resolution_retry_count)) := by
  cases o with
  | engineError m =>
    have hm : truthyOpt (some m) = true := by
      simpa [truthyOpt, String.isEmpty_iff] using ho
    simp [applyOutcome, validation_agent, hk, hm]
  | verdict v =>
    have hv : v.passed = false := ho
    have hn : truthyOpt Option.none = false := rfl
    by_cases hr : v.route_to = "query_resolution"
    · simp [applyOutcome, validation_agent, hk, hn, hv, hr]
    · by_cases hr2 : v.route_to = "data_extraction"
      · simp [applyOutcome, validation_agent, hk, hn, hv, hr2]
      · simp [applyOutcome, validation_agent, hk, hn, hv, hr, hr2]

/-- If the router does not send a failing state to the formatter, the
stored route is recognized and its (already incremented) counter is still
below its ceiling. -/
theorem validation_router_continue {s : AgentState} (hp : s.validation_passed = false)
    (h : validation_router s ≠ "formatter") :
    (s.route_to = "query_resolution" ∧ s.resolution_retry_count < MAX_RETRIES_RESOLUTION) ∨
    (s.route_to = "data_extraction" ∧ s.extraction_retry_count < MAX_RETRIES_EXTRACTION) := by
  by_cases h1 : s.route_to = "query_resolution" ∧ s.resolution_retry_count < MAX_RETRIES_RESOLUTION
  · exact Or.inl h1
  · by_cases h2 : s.route_to = "data_extraction" ∧ s.extraction_retry_count < MAX_RETRIES_EXTRACTION
    · exact Or.inr h2
    · exfalso
      apply h
      unfold validation_router
      rw [if_neg (by simp [hp]), if_neg h1, if_neg h2]

/-- As long as the router keeps retrying, each counter stays at most 2 and
the counters sum to the number of failing cycles so far. -/
theorem failTrace_counters (api_key : Option String) (hk : truthyOpt api_key = true)
    (outs : Nat → CycleOutcome) (hf : ∀ i, FAILS (outs i)) (q : String) :
    ∀ k : Nat,
      (∀ j : Nat, 1 ≤ j → j ≤ k →
        validation_router (failTrace api_key outs (initialState q) j) ≠ "formatter") →
      (failTrace api_key outs (initialState q) k).resolution_retry_count ≤ 2 ∧
      (failTrace api_key outs (initialState q) k).extraction_retry_count ≤ 2 ∧
      (failTrace api_key outs (initialState q) k).resolution_retry_count +
        (failTrace api_key outs (initialState q) k).extraction_retry_count = k := by
  intro k
  induction k with
  | zero =>
    intro _
    refine ⟨?_, ?_, ?_⟩ <;> simp [failTrace, initialState]
  | succ k ih =>
    intro hcont
    obtain ⟨i1, i2, i3⟩ := ih (fun j hj1 hjk => hcont j hj1 (Nat.le_succ_of_le hjk))
    have hstep := applyOutcome_fail api_key hk (hf k)
      (failTrace api_key outs (initialState q) k)
    have hrt := validation_router_continue hstep.1
      (hcont (k + 1) (by omega) (by omega))
    show (applyOutcome api_key (outs k) (failTrace api_key outs (initialState q) k)).resolution_retry_count ≤ 2 ∧
      (applyOutcome api_key (outs k) (failTrace api_key outs (initialState q) k)).extraction_retry_count ≤ 2 ∧
      (applyOutcome api_key (outs k) (failTrace api_key outs (initialState q) k)).resolution_retry_count +
        (applyOutcome api_key (outs k) (failTrace api_key outs (initialState q) k)).extraction_retry_count = k + 1
    rcases hstep.2 with ⟨hq, hres, hext⟩ | ⟨hd, hext, hres⟩
    · rcases hrt with ⟨_, hlt⟩ | ⟨hd2, _⟩
      · rw [hres] at hlt
        rw [hres, hext]
        rw [MAX_RETRIES_RESOLUTION] at hlt
        exact ⟨by omega, i2, by omega⟩
      · rw [hq] at hd2
        exact absurd hd2 (by decide)
    · rcases hrt with ⟨hq2, _⟩ | ⟨_, hlt⟩
      · rw [hd] at hq2
        exact absurd hq2 (by decide)
      · rw [hext] at hlt
        rw [hres, hext]
        rw [MAX_RETRIES_EXTRACTION] at hlt
        exact ⟨i1, by omega, by omega⟩

/-- C1: for every sequence of judgment outcomes in which every judgment
fails, the router sends the machine to the terminal formatter node within
at most 6 failing judgment cycles (the counters, each capped at 3 by
`MAX_RETRIES_RESOLUTION`/`MAX_RETRIES_EXTRACTION`, cannot both keep the
router retrying), so the loop never runs forever. -/
theorem C1_termination_within_six (api_key : Option String) (hk : truthyOpt api_key = true)
    (outs : Nat → CycleOutcome) (hf : ∀ i, FAILS (outs i)) (q : String) :
    ∃ k, 1 ≤ k ∧ k ≤ 6 ∧
      validation_router (failTrace api_key outs (initialState q) k) = "formatter" := by
  by_contra hcon
  push_neg at hcon
  have h5 := failTrace_counters api_key hk outs hf q 5
    (fun j hj1 hj5 => hcon j hj1 (by omega))
  omega

/-- C5: a failing judgment increments exactly the counter designated by
its route and leaves the other unchanged — `query_resolution` (the
resolution stage) bumps only `resolution_retry_count`, `data_extraction`
(the extraction stage) bumps only `extraction_retry_count`; the synthetic
failing judgment produced for a recorded error likewise bumps only the
extraction counter. -/
theorem C5_retry_attribution (api_key : Option String) (hk : truthyOpt api_key = true)
    (s : AgentState) (v : ValidationOutput) (hv : v.passed = false) :
    (truthyOpt s.error = false → v.route_to = "query_resolution" →
      (validation_agent api_key (Except.ok v) s).resolution_retry_count = s.resolution_retry_count + 1 ∧
      (validation_agent api_key (Except.ok v) s).extraction_retry_count = s.extraction_retry_count) ∧
    (truthyOpt s.error = false → v.route_to = "data_extraction" →
      (validation_agent api_key (Except.ok v) s).extraction_retry_count = s.extraction_retry_count + 1 ∧
      (validation_agent api_key (Except.ok v) s).resolution_retry_count = s.resolution_retry_count) ∧
    (∀ j : Except String ValidationOutput, truthyOpt s.error = true →
      (validation_agent api_key j s).route_to = "data_extraction" ∧
      (validation_agent api_key j s).extraction_retry_count = s.extraction_retry_count + 1 ∧
      (validation_agent api_key j s).resolution_retry_count = s.resolution_retry_count) := by
  refine ⟨?_, ?_, ?_⟩
  · intro he hr
    simp [validation_agent, hk, he, hv, hr]
  · intro he hr
    simp [validation_agent, hk, he, hv, hr]
  · intro j he
    simp [validation_agent, hk, he]

/-- C4 counterexample: the code has a single error channel; an error whose
text marks it as a spec-validation failure is still routed to
`data_extraction` (the extraction stage), not to `query_resolution`
(resolution) as the claim requires for spec errors. -/
theorem C4_counterexample_spec_error_not_routed_to_resolution :
    (validation_agent (some "k") (Except.ok ⟨false, "bad spec", "query_resolution"⟩)
        { initialState "q" with
          error := some "SpecValidationError: column Revenu not found" }).route_to
      = "data_extraction" ∧
    (validation_agent (some "k") (Except.ok ⟨false, "bad spec", "query_resolution"⟩)
        { initialState "q" with
          error := some "SpecValidationError: column Revenu not found" }).route_to
      ≠ "query_resolution" := by
  exact ⟨rfl, by decide⟩

/-- C4 (amended): whenever an error is recorded in the state (the single
channel used for both spec and execution failures), `validation_agent`
produces a synthetic failing judgment by itself — `passed=false`,
`route_to=data_extraction`, extraction counter incremented — and does not
invoke the Judge: the result is independent of the judge's response. -/
theorem C4_amended_synthetic_judgment (api_key : Option String) (hk : truthyOpt api_key = true)
    (s : AgentState) (he : truthyOpt s.error = true)
    (j₁ j₂ : Except String ValidationOutput) :
    validation_agent api_key j₁ s = validation_agent api_key j₂ s ∧
    (validation_agent api_key j₁ s).validation_passed = false ∧
    (validation_agent api_key j₁ s).route_to = "data_extraction" ∧
    (validation_agent api_key j₁ s).extraction_retry_count = s.extraction_retry_count + 1 ∧
    (validation_agent api_key j₁ s).resolution_retry_count = s.resolution_retry_count := by
  simp [validation_agent, hk, he]

/-- C9 counterexample: a Judge-call exception is not fatal and not
reported verbatim — validation passes through (`validation_passed=true`)
and the turn continues; a Formatter-call exception likewise yields a
fallback answer assembled from the raw rows instead of a fatal report. -/
theorem C9_counterexample_collaborator_fallback :
    (validation_agent (some "k") (Except.error "LLM unavailable")
        (initialState "q")).validation_passed = true ∧
    (formatter_agent (some "k") (Except.error "LLM unavailable")
        { initialState "q" with validation_passed := true }).final_answer
      = "Results (0 rows):\n(no data)" ∧
    (formatter_agent (some "k") (Except.error "LLM unavailable")
        { initialState "q" with validation_passed := true }).error
      = some "formatter LLM failed: LLM unavailable" := by
  exact ⟨rfl, rfl, rfl⟩

/-- C9 (amended): collaborator unavailability is absorbed, not fatal: a
Judge exception makes validation pass through with a reason recording the
failure, and a Formatter exception (in any state that reaches the LLM
call) produces a fallback answer of the raw rows while recording the
exception in the `error` field. -/
theorem C9_amended_collaborator_absorbed (api_key : Option String)
    (hk : truthyOpt api_key = true) (exc : String)
    (s : AgentState) (he : truthyOpt s.error = false)
    (s₂ : AgentState) (h₂ : s₂.validation_passed = true ∨ s₂.rows ≠ []) :
    (validation_agent api_key (Except.error exc) s).validation_passed = true ∧
    (validation_agent api_key (Except.error exc) s).validation_reason =
      "Validation LLM failed (" ++ exc ++ "), passing through." ∧
    (formatter_agent api_key (Except.error exc) s₂).final_answer =
      "Results (" ++ toString s₂.rows.length ++ " rows):\n" ++
        rows_to_text s₂.rows s₂.columns 20 ∧
    (formatter_agent api_key (Except.error exc) s₂).error =
      some ("formatter LLM failed: " ++ exc) := by
  have hcond : ¬ (s₂.validation_passed = false ∧ s₂.rows = []) := by
    rcases h₂ with h | h
    · simp [h]
    · simp [h]
  refine ⟨?_, ?_, ?_, ?_⟩ <;>
    simp [validation_agent, formatter_agent, hk, he, hcond]

/-- C2 counterexample: a spec referencing column `Revenu`, absent from the
uploaded table, does not raise any validation error — `build_sql` (which
never receives the table's column set) returns complete SQL naming the
unknown column, so no `SpecValidationError` precedes SQL generation. -/
theorem C2_counterexample_unknown_column_compiles :
    build_sql revenuSpec "sales" = some "SELECT \"Revenu\"\nFROM sales" := by decide

/-- C8 counterexample: the unrecognized aggregation function `median` is
not rejected; `build_sql` upper-cases it and passes it straight through
into the generated SQL instead of raising a validation error. -/
theorem C8_counterexample_median_passthrough :
    build_sql medianSpec "t" =
      some "SELECT MEDIAN(\"price\") AS \"median_price\"\nFROM t" := by decide

/-- Witness for C1 at a concrete judge sequence that always fails toward
the extraction stage. -/
theorem C1_termination_within_six_witness :
    truthyOpt (some "key") = true ∧
    (∃ k, 1 ≤ k ∧ k ≤ 6 ∧
      validation_router (failTrace (some "key")
        (fun _ => CycleOutcome.verdict ⟨false, "r", "data_extraction"⟩)
        (initialState "q") k) = "formatter") :=
  ⟨by decide,
   C1_termination_within_six (some "key") (by decide)
     (fun _ => CycleOutcome.verdict ⟨false, "r", "data_extraction"⟩) (fun _ => rfl) "q"⟩

/-- Witness for the amended C2 at the `Revenu` spec. -/
theorem C2_amended_witness :
    revenuSpec.aggregations = [] ∧ "Revenu" ∈ revenuSpec.relevant_columns ∧
    filtersWF revenuSpec.filters = true ∧
    (∃ s, build_sql revenuSpec "sales" = some s ∧ strContains s (qcol "Revenu")) :=
  ⟨rfl, by decide, by decide,
   C2_amended_no_column_validation revenuSpec "sales" "Revenu" rfl (by decide) (by decide)⟩

/-- Witness for C3 at a concrete `count` aggregation on `Order ID`. -/
theorem C3_witness :
    (⟨"Order ID", "count"⟩ : AggregationSpec) ∈ countSpec.aggregations ∧
    pyUpper "count" = "COUNT" ∧
    build_sql countSpec "t" =
      some "SELECT COUNT(DISTINCT \"Order ID\") AS \"count_order_id\"\nFROM t" ∧
    (strContains "SELECT COUNT(DISTINCT \"Order ID\") AS \"count_order_id\"\nFROM t"
        ("COUNT(DISTINCT " ++ qcol "Order ID" ++ ") AS \"" ++
          ("count_" ++ pyReplace (pyLower "Order ID") ' ' "_") ++ "\"") ∧
      "COUNT(*)" ∉ selectParts countSpec) :=
  ⟨by decide, by decide, by decide,
   C3_count_distinct_never_countstar countSpec "t" ⟨"Order ID", "count"⟩ (by decide)
     (by decide) "SELECT COUNT(DISTINCT \"Order ID\") AS \"count_order_id\"\nFROM t"
     (by decide)⟩

/-- Witness for the amended C4 at a concrete error state and two distinct
judge behaviours. -/
theorem C4_amended_witness :
    truthyOpt (some "key") = true ∧ truthyOpt errState.error = true ∧
    (validation_agent (some "key") (Except.error "down") errState =
      validation_agent (some "key") (Except.ok ⟨true, "", ""⟩) errState ∧
     (validation_agent (some "key") (Except.error "down") errState).validation_passed = false ∧
     (validation_agent (some "key") (Except.error "down") errState).route_to = "data_extraction" ∧
     (validation_agent (some "key") (Except.error "down") errState).extraction_retry_count =
       errState.extraction_retry_count + 1 ∧
     (validation_agent (some "key") (Except.error "down") errState).resolution_retry_count =
       errState.resolution_retry_count) :=
  ⟨by decide, by decide,
   C4_amended_synthetic_judgment (some "key") (by decide) errState (by decide)
     (Except.error "down") (Except.ok ⟨true, "", ""⟩)⟩

/-- Witness for C5 at a failing verdict routed to resolution. -/
theorem C5_witness :
    truthyOpt (some "key") = true ∧
    (⟨false, "r", "query_resolution"⟩ : ValidationOutput).passed = false ∧
    truthyOpt (initialState "q").error = false ∧
    ((validation_agent (some "key") (Except.ok ⟨false, "r", "query_resolution"⟩)
        (initialState "q")).resolution_retry_count =
      (initialState "q").resolution_retry_count + 1 ∧
     (validation_agent (some "key") (Except.ok ⟨false, "r", "query_resolution"⟩)
        (initialState "q")).extraction_retry_count =
      (initialState "q").extraction_retry_count) :=
  ⟨by decide, rfl, rfl,
   (C5_retry_attribution (some "key") (by decide) (initialState "q")
      ⟨false, "r", "query_resolution"⟩ rfl).1 rfl rfl⟩

/-- Witness for C6 at a spec exercising all three filter value shapes. -/
theorem C6_witness :
    filtersWF wfSpec.filters = true ∧
    ((∃ s, build_sql wfSpec "t" = some s) ∧
     ∀ s₁ s₂, build_sql wfSpec "t" = some s₁ → build_sql wfSpec "t" = some s₂ → s₁ = s₂) :=
  ⟨by decide, C6_total_deterministic wfSpec "t" (by decide)⟩

/-- Witness for C7 at the §8 scenario spec and `limit = 5`. -/
theorem C7_witness :
    build_sql { sampleSpec with limit := Option.none } "sales" =
      build_sql { sampleSpec with limit := some 0 } "sales" ∧
    0 < (5 : Int) ∧
    build_sql { sampleSpec with limit := some 5 } "sales" =
      Option.map (fun s => s ++ "\nLIMIT " ++ toString (5 : Int))
        (build_sql { sampleSpec with limit := Option.none } "sales") :=
  ⟨(C7_limit_clause sampleSpec "sales").1, by decide,
   (C7_limit_clause sampleSpec "sales").2 5 (by decide)⟩

/-- Witness for the amended C8 at the `median` aggregation. -/
theorem C8_amended_witness :
    (⟨"price", "median"⟩ : AggregationSpec) ∈ medianSpec.aggregations ∧
    pyUpper "median" ≠ "COUNT" ∧
    build_sql medianSpec "t" = some "SELECT MEDIAN(\"price\") AS \"median_price\"\nFROM t" ∧
    strContains "SELECT MEDIAN(\"price\") AS \"median_price\"\nFROM t"
      (pyUpper "median" ++ "(" ++ qcol "price" ++ ") AS \"" ++
        (pyLower (pyUpper "median") ++ "_" ++ pyReplace (pyLower "price") ' ' "_") ++ "\"") :=
  ⟨by decide, by decide, by decide,
   C8_amended_passthrough medianSpec "t" ⟨"price", "median"⟩ (by decide) (by decide)
     "SELECT MEDIAN(\"price\") AS \"median_price\"\nFROM t" (by decide)⟩

/-- Witness for the amended C9 at concrete failing collaborators. -/
theorem C9_amended_witness :
    truthyOpt (some "key") = true ∧ truthyOpt (initialState "q").error = false ∧
    (okState.validation_passed = true ∨ okState.rows ≠ []) ∧
    ((validation_agent (some "key") (Except.error "down") (initialState "q")).validation_passed = true ∧
     (validation_agent (some "key") (Except.error "down") (initialState "q")).validation_reason =
       "Validation LLM failed (" ++ "down" ++ "), passing through." ∧
     (formatter_agent (some "key") (Except.error "down") okState).final_answer =
       "Results (" ++ toString okState.rows.length ++ " rows):\n" ++
         rows_to_text okState.rows okState.columns 20 ∧
     (formatter_agent (some "key") (Except.error "down") okState).error =
       some ("formatter LLM failed: " ++ "down")) :=
  ⟨by decide, rfl, Or.inl rfl,
   C9_amended_collaborator_absorbed (some "key") (by decide) "down" (initialState "q") rfl
     okState (Or.inl rfl)⟩

/-- Witness for C10 at a spec whose only filter operator is unrecognized. -/
theorem C10_witness :
    conds weirdSpec.filters =
      conds (weirdSpec.filters.filter (fun f => decide (f.operator ∈ OPS))) ∧
    (∀ f ∈ weirdSpec.filters, f.operator ∉ OPS) ∧
    build_sql weirdSpec "t" = build_sql { weirdSpec with filters := [] } "t" :=
  ⟨(C10_unrecognized_filters_skipped weirdSpec "t").1, by decide,
   (C10_unrecognized_filters_skipped weirdSpec "t").2 (by decide)⟩
